import Mathlib

/-!
  Verification development for the travel-agent conversational workflow
  engine.  The Python source is shallowly embedded: dicts become ordered
  association lists over a JSON-like value type, exceptions become
  `Except PyErr`, and the LangGraph turn loop becomes an explicit step
  function driven by an environment that supplies oracle replies and
  handler results.
-/

set_option autoImplicit false

namespace TravelAgent

/-- A JSON-like Python value: `None`, booleans, integers, strings, lists
and (insertion-ordered) dicts.  Mirrors the values that flow through the
session store and handler contexts. -/
inductive Val where
  | null
  | bool (b : Bool)
  | int (n : Int)
  | str (s : String)
  | list (xs : List Val)
  | dict (fields : List (String × Val))
  deriving Repr

/-- Python truthiness on the embedded values (`bool(v)`). -/
def Val.truthy : Val → Bool
  | .null => false
  | .bool b => b
  | .int n => n != 0
  | .str s => s != ""
  | .list xs => !xs.isEmpty
  | .dict d => !d.isEmpty

/-- `v is None`. -/
def Val.isNull : Val → Bool
  | .null => true
  | _ => false

/-- A Python dict, as an insertion-ordered association list. -/
abbrev Dict := List (String × Val)

/-- `d[k]` lookup: first matching key (Python dicts never hold duplicate
keys, so first-match agrees with dict lookup on well-formed values). -/
def dget (d : Dict) (k : String) : Option Val :=
  match d with
  | [] => none
  | (k', v) :: rest => if k' = k then some v else dget rest k

/-- `d[k] = v` assignment: replaces the value in place if the key exists,
otherwise appends (Python dict insertion order). -/
def dset (d : Dict) (k : String) (v : Val) : Dict :=
  match d with
  | [] => [(k, v)]
  | (k', v') :: rest => if k' = k then (k', v) :: rest else (k', v') :: dset rest k v

/-- `k in d` membership test. -/
def dhas (d : Dict) (k : String) : Bool :=
  (dget d k).isSome

@[simp] theorem dget_nil (k : String) : dget [] k = none := rfl

theorem dget_dset_self (d : Dict) (k : String) (v : Val) :
    dget (dset d k v) k = some v := by
  induction d with
  | nil => simp [dget, dset]
  | cons hd tl ih =>
    obtain ⟨k', v'⟩ := hd
    by_cases h : k' = k <;> simp [dget, dset, h, ih]

theorem dget_dset_ne (d : Dict) (k k' : String) (v : Val) (h : k ≠ k') :
    dget (dset d k v) k' = dget d k' := by
  induction d with
  | nil => simp [dget, dset, h]
  | cons hd tl ih =>
    obtain ⟨k'', v''⟩ := hd
    by_cases h2 : k'' = k
    · subst h2
      simp [dget, dset, h]
    · simp [dget, dset, h2, ih]

mutual

/-- `update_dict(d1, d2)` from `src/travel_agent/utils/__init__.py`:
copies `d1` and walks `d2` in order; when both sides hold a dict at a key
it merges recursively, otherwise the overlay value wins only when truthy
(`elif v:`). -/
def update_dict : Dict → Dict → Dict
  | d1, [] => d1
  | d1, (k, v) :: rest => update_dict (upd_entry d1 k v) rest
  termination_by d1 d2 => sizeOf d2

/-- The loop body of `update_dict` for a single overlay entry `(k, v)`. -/
def upd_entry (d1 : Dict) (k : String) (v : Val) : Dict :=
  match v, dget d1 k with
  | .dict o, some (.dict b) => dset d1 k (.dict (update_dict b o))
  | _, _ => if v.truthy then dset d1 k v else d1
  termination_by sizeOf v

end

@[simp] theorem update_dict_nil (d1 : Dict) : update_dict d1 [] = d1 := by
  rw [update_dict]

theorem update_dict_cons (d1 : Dict) (k : String) (v : Val) (rest : Dict) :
    update_dict d1 ((k, v) :: rest) = update_dict (upd_entry d1 k v) rest := by
  rw [update_dict]

theorem dget_upd_entry_ne (d1 : Dict) (k k' : String) (v : Val) (h : k ≠ k') :
    dget (upd_entry d1 k v) k' = dget d1 k' := by
  rw [upd_entry.eq_def]
  split
  · exact dget_dset_ne _ _ _ _ h
  · split
    · exact dget_dset_ne _ _ _ _ h
    · rfl

/-- Keys not mentioned in the overlay are untouched by `update_dict`. -/
theorem dget_update_dict_not_mem (d2 d1 : Dict) (k : String)
    (h : k ∉ d2.map Prod.fst) :
    dget (update_dict d1 d2) k = dget d1 k := by
  induction d2 generalizing d1 with
  | nil => simp
  | cons hd tl ih =>
    obtain ⟨k', v'⟩ := hd
    simp only [List.map_cons, List.mem_cons] at h
    push_neg at h
    rw [update_dict_cons, ih _ h.2, dget_upd_entry_ne _ _ _ _ (Ne.symm h.1)]

/-- The value the merge assigns to a key that is present in the overlay,
as a function of the base's value at that key (`bv`) and the overlay's
value (`v`).  Read off from the loop body of `update_dict`. -/
def merged_value (bv : Option Val) (v : Val) : Option Val :=
  match v, bv with
  | .dict o, some (.dict b) => some (.dict (update_dict b o))
  | _, _ => if v.truthy then some v else bv

theorem dget_upd_entry_self (d1 : Dict) (k : String) (v : Val) :
    dget (upd_entry d1 k v) k = merged_value (dget d1 k) v := by
  rw [upd_entry.eq_def, merged_value.eq_def]
  split
  · simp [dget_dset_self]
  · split
    · simp [dget_dset_self]
    · rfl

/-- Full per-key characterization of `update_dict` for overlays without
duplicate keys (Python dicts never have duplicates). -/
theorem dget_update_dict (B O : Dict) (k : String)
    (hO : (O.map Prod.fst).Nodup) :
    dget (update_dict B O) k =
      match dget O k with
      | none => dget B k
      | some v => merged_value (dget B k) v := by
  induction O generalizing B with
  | nil => simp
  | cons hd tl ih =>
    obtain ⟨k', v'⟩ := hd
    simp only [List.map_cons, List.nodup_cons] at hO
    by_cases hk : k' = k
    · subst hk
      rw [update_dict_cons,
        dget_update_dict_not_mem _ _ _ hO.1, dget_upd_entry_self]
      simp [dget]
    · rw [update_dict_cons, ih _ hO.2,
        dget_upd_entry_ne _ _ _ _ hk]
      simp [dget, hk]

/-- Is `v` the empty string or an empty collection? -/
def Val.emptyColl : Val → Bool
  | .str s => s == ""
  | .list xs => xs.isEmpty
  | .dict d => d.isEmpty
  | _ => false

/-- Claim C2 as stated: any key present in the overlay with a non-null,
non-empty value takes the overlay's value in the merge, and any key
absent/empty/null in the overlay but present in the base keeps the
base's value. -/
def overlay_wins_claim : Prop :=
  (∀ (B O : Dict) (k : String) (v : Val),
    dget O k = some v → v.isNull = false → v.emptyColl = false →
      dget (update_dict B O) k = some v) ∧
  (∀ (B O : Dict) (k : String) (w : Val),
    (dget O k = none ∨ dget O k = some .null ∨
      ∃ v, dget O k = some v ∧ v.emptyColl = true) →
    dget B k = some w →
      dget (update_dict B O) k = some w)

/-- Claim C2, counterexample: take the base mapping `k = 5` and the
overlay mapping `k = 0`.  The overlay value `0` is non-null and not an
empty collection, so the claim demands that the merge map `k` to `0`;
but `update_dict` tests Python truthiness (`elif v:`), under which `0`
is falsy, so the code keeps the base value `5`. -/
theorem update_dict_claim_false : ¬ overlay_wins_claim := by
  intro h
  have h0 := h.1 [("k", .int 5)] [("k", .int 0)] "k" (.int 0)
    (by simp [dget]) rfl rfl
  have he : update_dict [("k", Val.int 5)] [("k", Val.int 0)]
      = [("k", Val.int 5)] := by
    rw [update_dict_cons, update_dict_nil, upd_entry.eq_def]
    simp [dget, Val.truthy]
  rw [he] at h0
  simp [dget] at h0

/-- Claim C2, amended: for overlays without duplicate keys, the merged
value at `k` is: the base's value when `k` is absent from the overlay;
otherwise `merged_value` of the two sides — the recursive merge when both
sides hold a dict at `k` (the recursion applies at every depth of
nesting, not exactly one level), else the overlay's value when it is
truthy (so `0`, `False`, `""`, `[]` and `None` all lose, not only
null/empty), else the base's value. -/
theorem update_dict_merge_spec (B O : Dict) (k : String)
    (hO : (O.map Prod.fst).Nodup) :
    dget (update_dict B O) k =
      match dget O k with
      | none => dget B k
      | some v => merged_value (dget B k) v :=
  dget_update_dict B O k hO

/-- Witness for the amended claim C2 at a concrete nested input. -/
theorem update_dict_merge_spec_witness :
    (([("p", Val.dict [("c", Val.int 2)]), ("z", Val.null)].map
        Prod.fst).Nodup) ∧
    dget (update_dict [("a", Val.str "x"), ("p", Val.dict [("b", Val.int 1)])]
        [("p", Val.dict [("c", Val.int 2)]), ("z", Val.null)]) "p" =
      match dget [("p", Val.dict [("c", Val.int 2)]), ("z", Val.null)] "p" with
      | none => dget [("a", Val.str "x"), ("p", Val.dict [("b", Val.int 1)])] "p"
      | some v =>
        merged_value
          (dget [("a", Val.str "x"), ("p", Val.dict [("b", Val.int 1)])] "p") v :=
  ⟨by simp, update_dict_merge_spec _ _ "p" (by simp)⟩

/-! ### Orchestrator data model

`src/travel_agent/core/agents/orchestrator.py`.  Python exceptions are
modelled by `PyErr`; the classification oracle (the LLM) is an opaque
input supplying structured replies. -/

inductive PyErr where
  | keyErr (k : String)
  | nameErr (n : String)
  | valueErr
  | typeErr
  | attrErr
  | jsonDecodeErr
  | graphEdgeErr (n : String)
  | recursionLimitErr
  deriving Repr, DecidableEq

/-- Snapshot returned by `cache_client.get_conversation_history`: for each
event kind, the ordered list of `data` payloads of that kind.  An absent
kind and an empty list behave identically at every use site (truthiness,
`in`, indexing), so both are the empty list.  `context` payloads are
always dicts (the orchestrator only ever stores dicts under that kind). -/
structure SessionData where
  plan : List Val
  context : List Dict
  collected_info : List Val
  email : List Val
  conversation_state : List Val
  deriving Repr

/-- The LangGraph `AgentState` TypedDict.  Workflow-history entries are
reduced to their `"agent"` key, the only key the orchestrator ever reads
back.  `context` is a `Val` because the router stores a raw string into
it on the calendar-confirmation path (line 217). -/
structure AgentState where
  messages : List String
  current_agent : Option String
  context : Val
  result : Option Dict
  workflow_history : List String
  next_steps : List String
  deriving Repr

/-- The `missing_info` object of a parsed oracle reply (`fields`,
`message`, `examples`).  Models a key-complete object; a reply missing
one of the accessed keys would raise `KeyError` and abort the turn. -/
structure MissingInfo where
  fields : List String
  message : String
  examples : Dict
  deriving Repr

/-- A parsed intent-classification reply (the JSON schema of lines
279-297).  `confidence` is omitted: the code never reads it. -/
structure IntentAnalysis where
  primary_intent : String
  suggested_next_steps : List String
  extracted_context : Dict
  missing_info : Option MissingInfo
  deriving Repr

/-- The raw oracle reply: either it parses as JSON (`parsed`) or
`json.loads` raises `JSONDecodeError` (`unparsable`, carrying the raw
text that line 453 echoes back). -/
inductive OracleReply where
  | parsed (a : IntentAnalysis)
  | unparsable (content : String)
  deriving Repr

/-- A parsed continuation reply (`is_complete` / `next_steps`,
lines 552-556). -/
structure NextStepsAnalysis where
  is_complete : Bool
  next_steps : List String
  deriving Repr

/-- Does the result dict hold the string `s` under `"status"`?  Mirrors
`result.get("status") == s` (false for an absent or non-string status). -/
def is_status (r : Dict) (s : String) : Bool :=
  match dget r "status" with
  | some (.str s') => s' == s
  | _ => false

def valid_agents : List String :=
  ["search", "planner", "calendar", "mail", "recommendation"]

/-! ### The Turn Router: `_analyze_intent` -/

/-- `msg.strip()`: drop leading and trailing whitespace.  (Defined over
the character list so that concrete inputs evaluate by `rfl`; the
built-in `String.trim` does not kernel-reduce.) -/
def py_strip (s : String) : String :=
  ⟨((s.data.dropWhile Char.isWhitespace).reverse.dropWhile
      Char.isWhitespace).reverse⟩

/-- `c in s` for a single character. -/
def py_contains (s : String) (c : Char) : Bool :=
  s.data.any (· == c)

/-- `s.split(sep)` for a one-character separator. -/
def split_on_char (c : Char) (s : String) : List String :=
  (s.data.splitOn c).map fun l => ⟨l⟩

/-- Python substring test `needle in hay` (the empty needle is always
contained). -/
def is_substring (needle hay : String) : Bool :=
  needle = "" || hay.data.tails.any fun t => needle.data.isPrefixOf t

/-- Python `child in container` for the container shapes reachable from
`is_field_in_context` (dict key test, substring test, list membership);
anything else raises `TypeError`. -/
def py_in (child : String) : Val → Except PyErr Bool
  | .dict d => .ok (dhas d child)
  | .str s => .ok (is_substring child s)
  | .list xs => .ok (xs.any fun v => match v with
      | .str s => s == child
      | _ => false)
  | _ => .error .typeErr

/-- `is_field_in_context` (lines 340-345): presence means the key exists
with a non-`None` value; one level of `parent.child` nesting is resolved.
`field.split(".")` with more than one dot raises `ValueError` at the
two-element unpacking. -/
def is_field_in_context (field : String) (context : Dict) :
    Except PyErr Bool :=
  if py_contains field '.' then
    match split_on_char '.' field with
    | [parent, child] =>
      match dget context parent with
      | none => .ok false
      | some pv => if pv.isNull then .ok false else py_in child pv
    | _ => .error .valueErr
  else
    .ok (match dget context field with
      | none => false
      | some v => !v.isNull)

/-- The filter predicate of lines 348-352 (`not (A or B)`), with Python's
short-circuit `or`. -/
def keep_missing_field (cc ec : Dict) (f : String) : Except PyErr Bool := do
  let a ← is_field_in_context f cc
  if a then pure false
  else do
    let b ← is_field_in_context f ec
    pure (!b)

/-- The list comprehension of lines 348-352. -/
def filter_missing_fields (cc ec : Dict) :
    List String → Except PyErr (List String)
  | [] => .ok []
  | f :: rest => do
    let keep ← keep_missing_field cc ec f
    let tail ← filter_missing_fields cc ec rest
    pure (if keep then f :: tail else tail)

/-- Lines 335-356: reconcile the missing-fields list.  Returns the
updated reply (reconciled fields written back, `missing_info` popped when
the reconciled list is empty) together with the value of the *local
variable* `missing_fields`, which keeps pointing at the pre-filter list
(line 337) and is what line 435 later emits. -/
def reconcile_missing (cc : Dict) (a : IntentAnalysis) :
    Except PyErr (IntentAnalysis × List String) :=
  match a.missing_info with
  | some mi =>
    if mi.fields ≠ [] then
      match filter_missing_fields cc a.extracted_context mi.fields with
      | .error e => .error e
      | .ok filtered =>
        let mi2 : Option MissingInfo :=
          if filtered = [] then none
          else some ({ mi with fields := filtered })
        .ok ({ a with missing_info := mi2 }, mi.fields)
    else .ok (a, [])
  | none => .ok (a, [])

/-- The hard-coded `required_context` table of lines 359-396. -/
def required_context_table (intent : String) : Dict :=
  if intent = "search" then
    [("query", .null), ("location", .null), ("type", .null)]
  else if intent = "planner" then
    [("departure_location", .null), ("departure_date", .null),
     ("destination", .null), ("duration", .null),
     ("preferences", .dict
       [("budget", .null), ("activities", .list []),
        ("accommodation", .null), ("transportation", .null)])]
  else if intent = "calendar" then
    [("event_details", .dict
      [("title", .null), ("start_date", .null), ("end_date", .null),
       ("location", .null), ("description", .null)])]
  else if intent = "recommendation" then
    [("recommendation_step", .null),
     ("collected_info", .dict
       [("travel_style", .null), ("activities", .list []),
        ("budget", .null), ("accommodation", .null),
        ("transportation", .null)])]
  else []

/-- One iteration of the extracted-context loop (lines 406-415).
Assigning under a dot-qualified parent whose current value is not a dict
raises `TypeError` (Python item assignment on a non-dict). -/
def apply_extracted_entry (target : Dict) (field : String) (value : Val) :
    Except PyErr Dict :=
  if py_contains field '.' then
    match split_on_char '.' field with
    | [parent, child] =>
      let target := if dhas target parent then target
                    else dset target parent (.dict [])
      if value.isNull then .ok target
      else
        match dget target parent with
        | some (.dict pd) =>
          .ok (dset target parent (.dict (dset pd child value)))
        | _ => .error .typeErr
    | _ => .error .valueErr
  else
    if value.isNull then .ok target else .ok (dset target field value)

/-- The extracted-context loop of lines 404-415, in insertion order. -/
def apply_extracted (target : Dict) : Dict → Except PyErr Dict
  | [] => .ok target
  | (f, v) :: rest =>
    match apply_extracted_entry target f v with
    | .error e => .error e
    | .ok t => apply_extracted t rest

/-- Output of one `_analyze_intent` run: the updated graph state, whether
the classification oracle was consulted, and the events appended to the
session store (kind, data). -/
structure RouterOutput where
  state : AgentState
  consulted_oracle : Bool
  appends : List (String × Val)
  deriving Repr

/-- The `need_more_info` result dict of lines 432-438.  Note the
`missing_fields` argument: the caller passes the *pre-filter* list. -/
def missing_info_result (message : String) (missing_fields : List String)
    (examples : Dict) (ctx : Val) : Dict :=
  [("status", .str "need_more_info"),
   ("message", .str message),
   ("missing_fields", .list (missing_fields.map .str)),
   ("examples", .dict examples),
   ("current_context", ctx)]

/-- The generic fallback result of lines 451-468 (classifier output that
fails to parse as JSON). -/
def parse_fallback_result (content : String) (ctx : Val) : Dict :=
  [("status", .str "need_more_info"),
   ("message", .str content),
   ("missing_fields", .list [.str "departure_location", .str "departure_date",
     .str "destination", .str "duration", .str "preferences"]),
   ("examples", .dict
     [("departure_location", .str "서울"),
      ("departure_date", .str "2024-05-01"),
      ("destination", .str "제주도"),
      ("duration", .str "3박 4일"),
      ("preferences", .dict
        [("budget", .str "100만원"),
         ("activities", .list [.str "해변", .str "등산", .str "맛집"]),
         ("accommodation", .str "호텔"),
         ("transportation", .str "렌터카")])]),
   ("current_context", ctx)]

/-- Lines 441-445: all required information is available; advance to the
chosen handler with the merged context and the oracle's raw
`suggested_next_steps` (stored as-is; they are overwritten before they
are ever popped). -/
def complete_route (cc : Dict) (st : AgentState) (a : IntentAnalysis)
    (target : Dict) (appends0 : List (String × Val)) : RouterOutput :=
  let st2 := { st with
    current_agent := some a.primary_intent,
    context := Val.dict (update_dict cc target),
    next_steps := a.suggested_next_steps }
  { state := st2, consulted_oracle := true, appends := appends0 }

/-- Lines 397-447 after the extracted-context loop: pure routing on the
(reconciled) reply. -/
def route_after_extract (cc : Dict) (st : AgentState) (a : IntentAnalysis)
    (missing_fields : List String) (target : Dict) : RouterOutput :=
  let appends0 := [("primary_intent", Val.str a.primary_intent)]
  if a.primary_intent = "recommendation" then
    let merged := update_dict cc target
    let st2 := { st with
      current_agent := some "recommendation",
      context := Val.dict merged, next_steps := [] }
    { state := st2, consulted_oracle := true,
      appends := appends0 ++ [("context", .dict merged)] }
  else
    match a.missing_info with
    | some mi =>
      if mi.fields ≠ [] then
        let merged := update_dict cc target
        let st2 := { st with
          context := Val.dict merged,
          result := some (missing_info_result mi.message missing_fields
            mi.examples (.dict merged)),
          next_steps := ["analyze_intent"], current_agent := none }
        { state := st2, consulted_oracle := true,
          appends := appends0 ++ [("context", .dict merged)] }
      else complete_route cc st a target appends0
    | none => complete_route cc st a target appends0

/-- Lines 331-447: handling of a successfully parsed oracle reply. -/
def analyze_intent_parsed (cc : Dict) (st : AgentState)
    (a : IntentAnalysis) : Except PyErr RouterOutput :=
  match reconcile_missing cc a with
  | .error e => .error e
  | .ok (a, missing_fields) =>
    match apply_extracted (required_context_table a.primary_intent)
        a.extracted_context with
    | .error e => .error e
    | .ok target => .ok (route_after_extract cc st a missing_fields target)

/-- `_analyze_intent` (lines 167-471).  The oracle call of line 329 is
abstracted by `reply`.  The email-capture branch (lines 178-205) always
raises: `session_data["context"][-1]` raises `KeyError` when no context
event exists, and otherwise line 203 references the undefined name
`email` (the local variable is `msg`), raising `NameError` — after the
`process_search_and_mail` Celery task has already been enqueued and the
state dict mutated in place (both effects are then discarded with the
turn).  Lines 214-218: the calendar-confirmation capture, which stores
the *raw message string* into the state's context field. -/
def calendar_capture_output (st : AgentState) (msg : String) :
    RouterOutput where
  state := { st with
    current_agent := some "calendar",
    context := Val.str msg }
  consulted_oracle := false
  appends := []

/-- Lines 449-471: the `JSONDecodeError` fallback output. -/
def fallback_output (st : AgentState) (content : String) :
    RouterOutput where
  state := { st with
    result := some (parse_fallback_result content st.context),
    next_steps := ["analyze_intent"], current_agent := none }
  consulted_oracle := true
  appends := []

def analyze_intent (session : SessionData) (reply : OracleReply)
    (st : AgentState) : Except PyErr RouterOutput :=
  match st.messages.getLast? with
  | none => .ok { state := st, consulted_oracle := false, appends := [] }
  | some last =>
    if py_contains (py_strip last) '@' && py_contains (py_strip last) '.'
        && !session.plan.isEmpty then
      match session.context.getLast? with
      | none => .error (.keyErr "context")
      | some _ => .error (.nameErr "email")
    else if !session.email.isEmpty && !session.plan.isEmpty then
      .ok (calendar_capture_output st (py_strip last))
    else
      match reply with
      | .unparsable content => .ok (fallback_output st content)
      | .parsed a =>
        analyze_intent_parsed ((session.context.getLast?).getD []) st a

/-! ### The Continuation Planner: `_determine_next_steps` -/

/-- The hard-coded email-request result of lines 522-530. -/
def email_request_result (ctx : Val) : Dict :=
  [("status", .str "need_more_info"),
   ("message", .str "여행 계획이 완성되었습니다. 이메일을 입력해주시면 상세한 장소 정보를 검색하고 메일로 보내드리겠습니다."),
   ("missing_fields", .list [.str "email"]),
   ("examples", .dict [("email", .str "user@example.com")]),
   ("current_context", ctx)]

/-- `_determine_next_steps` (lines 503-586).  Returns the updated state
and whether the oracle was consulted.  The oracle reply is `reply`; a
reply that fails to parse raises `json.loads`'s `JSONDecodeError`, which
this function does *not* catch (line 573). -/
def clear_steps (st : AgentState) : AgentState :=
  { st with next_steps := [] }

/-- Lines 520-532: the unconditional email-request pause after a
completed planner run. -/
def email_pause (st : AgentState) : AgentState :=
  { st with
    result := some (email_request_result st.context),
    next_steps := [] }

/-- Lines 579-584: keep only valid, not-yet-executed suggestions. -/
def filtered_steps (st : AgentState) (na : NextStepsAnalysis) :
    AgentState :=
  { st with
    next_steps := na.next_steps.filter
      (fun s => valid_agents.contains s
        && !st.workflow_history.contains s) }

def determine_next_steps (st : AgentState)
    (reply : Except Unit NextStepsAnalysis) :
    Except PyErr (AgentState × Bool) :=
  match st.result with
  | none => .ok (clear_steps st, false)
  | some r =>
    if !is_status r "success" then
      .ok (clear_steps st, false)
    else if st.workflow_history.contains "planner" then
      .ok (email_pause st, false)
    else
      match reply with
      | .error _ => .error .jsonDecodeErr
      | .ok na =>
        if na.is_complete || na.next_steps.isEmpty then
          .ok (clear_steps st, true)
        else
          .ok (filtered_steps st na, true)

/-! ### The Turn Engine: the LangGraph loop -/

/-- `_get_next_node` (lines 52-73): the conditional edge out of
`analyze_intent`.  `state.get("current_agent")` is a truthiness test, so
an empty string also falls through to `determine_next_steps`. -/
def get_next_node (st : AgentState) : String :=
  if (match st.result with
      | some r => is_status r "need_more_info"
      | none => false) then "determine_next_steps"
  else
    match st.current_agent with
    | some a => if a ≠ "" then a else "determine_next_steps"
    | none => "determine_next_steps"

/-- `_get_next_step_node` (lines 75-98): the conditional edge out of
`determine_next_steps`.  Pops the head of `next_steps` and mutates
`current_agent` in place. -/
def get_next_step_node (st : AgentState) : AgentState × String :=
  match st.next_steps with
  | [] => (st, "end")
  | h :: t =>
    let st := { st with next_steps := t }
    if valid_agents.contains h then ({ st with current_agent := some h }, h)
    else ({ st with current_agent := some "analyze_intent" }, "analyze_intent")

/-- The node closure built by `_run_agent` (lines 473-501): appends the
invocation to the workflow history, runs the handler (whose result is
supplied by the environment), tags successful search results, and stores
the result.  History entries are reduced to the `"agent"` name; the
`input`/`context` fields recorded alongside are only ever echoed into an
oracle prompt. -/
def run_agent_node (name : String) (r : Dict) (st : AgentState) :
    AgentState :=
  let r := if name == "search" && is_status r "success"
           then dset r "is_complete_search" (.bool true) else r
  { st with
    workflow_history := st.workflow_history ++ [name],
    result := some r }

/-- The LangGraph nodes, plus the two ways the stream can stop: reaching
`END`, or an exception escaping a node (which aborts `astream`). -/
inductive Node where
  | analyzeIntent
  | agentNode (name : String)
  | determine
  | finished
  | crashed (e : PyErr)
  deriving Repr, DecidableEq

/-- The environment of one turn: the session snapshot read by the router,
and the externally-supplied oracle replies and handler results, indexed
by the step counter so that every possible sequence of replies is
covered.  Handler-internal side effects (e.g. the calendar agent's own
store writes) live behind `agent_result`. -/
structure Env where
  session : SessionData
  intent_reply : Nat → OracleReply
  cont_reply : Nat → Except Unit NextStepsAnalysis
  agent_result : String → Nat → Except PyErr Dict

/-- A point of the turn loop: the node about to execute, the graph state,
a step counter, and accumulators for the oracle consultations and
session-store appends made by the orchestrator's own code. -/
structure Config where
  node : Node
  st : AgentState
  tick : Nat
  oracle_calls : Nat
  store_appends : List (String × Val)
  deriving Repr

/-- The edge map out of `analyze_intent` (lines 125-136): only the five
agents and `determine_next_steps` are mapped; any other value raises
inside LangGraph. -/
def route_from_analyze (nxt : String) : Node :=
  if nxt = "determine_next_steps" then .determine
  else if valid_agents.contains nxt then .agentNode nxt
  else .crashed (.graphEdgeErr nxt)

/-- The edge map out of `determine_next_steps` (lines 148-160). -/
def route_from_determine (nxt : String) : Node :=
  if nxt = "end" then .finished
  else if valid_agents.contains nxt then .agentNode nxt
  else if nxt = "analyze_intent" then .analyzeIntent
  else .crashed (.graphEdgeErr nxt)

/-- After a successful `determine_next_steps`: pop the head of
`next_steps` via the conditional edge and route. -/
def step_after_determine (c : Config) (p : AgentState × Bool) : Config :=
  { node := route_from_determine (get_next_step_node p.1).2,
    st := (get_next_step_node p.1).1, tick := c.tick + 1,
    oracle_calls := c.oracle_calls + (if p.2 then 1 else 0),
    store_appends := c.store_appends }

/-- One transition of the turn loop: execute the node `c.node` and route
to the next node along the graph's edges (lines 113-165). -/
def step (env : Env) (c : Config) : Config :=
  match c.node with
  | .finished => c
  | .crashed _ => c
  | .analyzeIntent =>
    match analyze_intent env.session (env.intent_reply c.tick) c.st with
    | .error e => { c with node := .crashed e, tick := c.tick + 1 }
    | .ok out =>
      { node := route_from_analyze (get_next_node out.state),
        st := out.state, tick := c.tick + 1,
        oracle_calls := c.oracle_calls +
          (if out.consulted_oracle then 1 else 0),
        store_appends := c.store_appends ++ out.appends }
  | .agentNode name =>
    match env.agent_result name c.tick with
    | .error e => { c with node := .crashed e, tick := c.tick + 1 }
    | .ok r =>
      { c with
        node := .determine,
        st := run_agent_node name r c.st,
        tick := c.tick + 1 }
  | .determine =>
    match determine_next_steps c.st (env.cont_reply c.tick) with
    | .error e => { c with node := .crashed e, tick := c.tick + 1 }
    | .ok p => step_after_determine c p

/-- Iterated turn-loop transitions. -/
def stepN (env : Env) : Nat → Config → Config
  | 0, c => c
  | n + 1, c => stepN env n (step env c)

/-- The initial LangGraph state built by `process_stream` (lines
632-639) for the invocation shape used by the chat route: no prior
message objects and no prior workflow history are passed. -/
def init_config (message : String) (ctx : Val) : Config :=
  { node := .analyzeIntent,
    st := { messages := [message], current_agent := none, context := ctx,
            result := none, workflow_history := [], next_steps := [] },
    tick := 0, oracle_calls := 0, store_appends := [] }

/-! ### C6: no handler is invoked twice within one turn -/

theorem route_after_extract_history (cc : Dict) (st : AgentState)
    (a : IntentAnalysis) (mf : List String) (t : Dict) :
    (route_after_extract cc st a mf t).state.workflow_history
      = st.workflow_history := by
  unfold route_after_extract complete_route
  repeat' split
  all_goals rfl

theorem analyze_intent_parsed_history (cc : Dict) (st : AgentState)
    (a : IntentAnalysis) (out : RouterOutput)
    (h : analyze_intent_parsed cc st a = .ok out) :
    out.state.workflow_history = st.workflow_history := by
  unfold analyze_intent_parsed at h
  split at h
  · simp at h
  · split at h
    · simp at h
    · injection h with h
      subst h
      exact route_after_extract_history _ _ _ _ _

/-- The router never touches the workflow history. -/
theorem analyze_intent_history (session : SessionData) (reply : OracleReply)
    (st : AgentState) (out : RouterOutput)
    (h : analyze_intent session reply st = .ok out) :
    out.state.workflow_history = st.workflow_history := by
  unfold analyze_intent at h
  split at h
  · injection h with h; subst h; rfl
  · split at h
    · split at h <;> simp at h
    · split at h
      · injection h with h; subst h; rfl
      · split at h
        · injection h with h; subst h; rfl
        · exact analyze_intent_parsed_history _ _ _ _ h

/-- The Continuation Planner never touches the workflow history, and
every handler name it schedules is a valid agent that has not yet been
executed this turn. -/
theorem determine_next_steps_spec (st : AgentState)
    (reply : Except Unit NextStepsAnalysis) (st' : AgentState) (b : Bool)
    (h : determine_next_steps st reply = .ok (st', b)) :
    st'.workflow_history = st.workflow_history ∧
    ∀ x ∈ st'.next_steps,
      x ∈ valid_agents ∧ x ∉ st.workflow_history := by
  unfold determine_next_steps at h
  split at h
  · injection h with h
    injection h with h1 h2
    subst h1
    exact ⟨rfl, by simp [clear_steps]⟩
  · split at h
    · injection h with h
      injection h with h1 h2
      subst h1
      exact ⟨rfl, by simp [clear_steps]⟩
    · split at h
      · injection h with h
        injection h with h1 h2
        subst h1
        exact ⟨rfl, by simp [email_pause]⟩
      · split at h
        · simp at h
        · split at h
          · injection h with h
            injection h with h1 h2
            subst h1
            exact ⟨rfl, by simp [clear_steps]⟩
          · injection h with h
            injection h with h1 h2
            subst h1
            refine ⟨rfl, ?_⟩
            intro x hx
            simp only [filtered_steps, List.mem_filter, Bool.and_eq_true,
              Bool.not_eq_true'] at hx
            obtain ⟨-, hv, hex⟩ := hx
            exact ⟨by simpa using hv, by simpa using hex⟩

theorem get_next_step_node_nil (st : AgentState)
    (h : st.next_steps = []) :
    get_next_step_node st = (st, "end") := by
  simp [get_next_step_node, h]

theorem get_next_step_node_cons_valid (st : AgentState) (hd : String)
    (tl : List String) (h : st.next_steps = hd :: tl)
    (hv : valid_agents.contains hd = true) :
    get_next_step_node st =
      ({ st with next_steps := tl, current_agent := some hd }, hd) := by
  have hv2 : hd ∈ valid_agents := by simpa using hv
  simp [get_next_step_node, h, hv2]

/-- Turn-loop invariant: the invocation log has no duplicates, any
handler node about to run is not yet in the log, and the router only
ever runs on the turn's initial (empty) log. -/
def histOK (c : Config) : Prop :=
  c.st.workflow_history.Nodup ∧
  (∀ a, c.node = .agentNode a → a ∉ c.st.workflow_history) ∧
  (c.node = .analyzeIntent → c.st.workflow_history = [])

theorem histOK_step (env : Env) (c : Config) (h : histOK c) :
    histOK (step env c) := by
  obtain ⟨hnd, hag, han⟩ := h
  cases hc : c.node with
  | finished =>
    simp only [step, hc]
    exact ⟨hnd, hag, han⟩
  | crashed e =>
    simp only [step, hc]
    exact ⟨hnd, hag, han⟩
  | analyzeIntent =>
    have hempty := han hc
    simp only [step, hc]
    cases hres : analyze_intent env.session (env.intent_reply c.tick) c.st with
    | error e =>
      exact ⟨hnd, by intro a hx; simp at hx, by intro hx; simp at hx⟩
    | ok out =>
      have hh : out.state.workflow_history = [] := by
        rw [analyze_intent_history _ _ _ _ hres, hempty]
      exact ⟨by simp [hh], by intro a _; simp [hh], by intro _; exact hh⟩
  | agentNode name =>
    have hnot := hag name hc
    simp only [step, hc]
    cases hres : env.agent_result name c.tick with
    | error e =>
      exact ⟨hnd, by intro a hx; simp at hx, by intro hx; simp at hx⟩
    | ok r =>
      refine ⟨?_, ?_, ?_⟩
      · simp [run_agent_node, List.nodup_append, hnd, hnot]
      · intro a hx; simp at hx
      · intro hx; simp at hx
  | determine =>
    simp only [step, hc]
    cases hres : determine_next_steps c.st (env.cont_reply c.tick) with
    | error e =>
      exact ⟨hnd, by intro a hx; simp at hx, by intro hx; simp at hx⟩
    | ok pair =>
      obtain ⟨st1, consulted⟩ := pair
      obtain ⟨hhist, hsteps⟩ := determine_next_steps_spec _ _ _ _ hres
      show histOK (step_after_determine c (st1, consulted))
      cases hns : st1.next_steps with
      | nil =>
        simp only [step_after_determine, get_next_step_node_nil st1 hns]
        refine ⟨by simpa [hhist] using hnd, ?_, ?_⟩
        · intro a hx; simp [route_from_determine] at hx
        · intro hx; simp [route_from_determine] at hx
      | cons hd tl =>
        obtain ⟨hval, hnmem⟩ := hsteps hd (hns ▸ List.mem_cons_self hd tl)
        have hcont : valid_agents.contains hd = true := by simpa using hval
        have hne : hd ≠ "end" := by
          intro hx
          rw [hx] at hval
          simp [valid_agents] at hval
        have hroute : route_from_determine hd = .agentNode hd := by
          simp [route_from_determine, hne, hval]
        simp only [step_after_determine,
          get_next_step_node_cons_valid st1 hd tl hns hcont]
        refine ⟨by simpa [hhist] using hnd, ?_, ?_⟩
        · intro a hx
          rw [hroute] at hx
          injection hx with hx
          subst hx
          simpa [hhist] using hnmem
        · intro hx
          rw [hroute] at hx
          simp at hx

theorem histOK_stepN (env : Env) (n : Nat) (c : Config) (h : histOK c) :
    histOK (stepN env n c) := by
  induction n generalizing c with
  | zero => exact h
  | succ n ih => exact ih _ (histOK_step env c h)

/-- Claim C6: within a single turn of the engine loop — starting from the
initial state `process_stream` builds, with an empty workflow history —
no handler is ever invoked twice, for every session snapshot, every
oracle behaviour (including suggested next-step lists with duplicates,
already-executed names, or invalid names) and every handler behaviour:
the workflow history, which records one entry per handler invocation,
never acquires a duplicate. -/
theorem no_handler_invoked_twice (env : Env) (message : String) (ctx : Val)
    (n : Nat) :
    ((stepN env n (init_config message ctx)).st.workflow_history).Nodup := by
  refine (histOK_stepN env n (init_config message ctx) ?_).1
  refine ⟨by simp [init_config], ?_, fun _ => rfl⟩
  intro a ha
  simp [init_config] at ha

/-! ### The streamed turn protocol: `process_stream` -/

/-- A chunk yielded by `process_stream` (the orchestrator's caller-facing
turn event): top-level status, the result payload (a `Val`: usually a
dict, but the invalid-message event carries a bare string), and the
optional progress message.  The `messages` echo included in the Python
dicts is dropped: the chat route never reads it. -/
structure Chunk where
  status : String
  result : Option Val
  output_message : Option String
  deriving Repr

/-- Lines 671-675: progress text chosen from the executing node's name. -/
def progress_message_for_result (node_name : String) : Option String :=
  if node_name = "planner" then some "여행 계획을 수립하고 있습니다..."
  else if node_name = "search" then some "장소 정보를 검색하고 있습니다..."
  else none

/-- Lines 696-701: progress text chosen from `current_agent`. -/
def progress_message_for_agent (agent : String) : Option String :=
  if agent = "planner" then some "여행 계획 에이전트가 작업을 시작합니다..."
  else if agent = "search" then some "장소 검색 에이전트가 작업을 시작합니다..."
  else none

/-- Lines 695-708: the `elif current_state.get("current_agent")` branch
(a truthiness test, so an empty string yields nothing). -/
def agent_start_chunk (st : AgentState) : Option Chunk :=
  match st.current_agent with
  | some a =>
    if a ≠ "" then
      some ⟨"processing", st.result.map .dict, progress_message_for_agent a⟩
    else none
  | none => none

/-- Lines 667-708: the chunk for a non-`analyze_intent` node update.
`if current_state.get("result"):` is a truthiness test, so an *empty*
result dict also falls through to the `current_agent` branch. -/
def general_chunk (node_name : String) (st : AgentState) : Option Chunk :=
  match st.result with
  | some r =>
    if r.isEmpty then agent_start_chunk st
    else if is_status r "processing" then
      some ⟨"processing", some (.dict r), progress_message_for_result node_name⟩
    else if !is_status r "need_more_info" then
      some ⟨"success", some (.dict r), none⟩
    else
      some ⟨"need_more_info", some (.dict r), none⟩
  | none => agent_start_chunk st

/-- Lines 656-708: the chunk (if any) yielded after node `executed` ran
and produced state `st`. -/
def chunk_for (executed : Node) (st : AgentState) : Option Chunk :=
  match executed with
  | .analyzeIntent =>
    match st.result with
    | some r =>
      if is_status r "need_more_info" then
        some ⟨"need_more_info", some (.dict r), none⟩
      else none
    | none => none
  | .agentNode name => general_chunk name st
  | .determine => general_chunk "determine_next_steps" st
  | _ => none

/-- The behaviour of `workflow.astream`, fuelled by LangGraph's recursion
limit: the chunks yielded (one per executed node, through `chunk_for`),
the exception aborting the stream if a node raises or the limit is hit,
and the final configuration.  A node that raises yields nothing for that
node. -/
def run_stream (env : Env) : Nat → Config → List Chunk × Option PyErr × Config
  | 0, c =>
    ([], if c.node = .finished then none else some .recursionLimitErr, c)
  | n + 1, c =>
    match c.node with
    | .finished => ([], none, c)
    | .crashed e => ([], some e, c)
    | executed =>
      let c' := step env c
      match c'.node with
      | .crashed e => ([], some e, c')
      | _ =>
        let rest := run_stream env n c'
        ((chunk_for executed c'.st).toList ++ rest.1, rest.2.1, rest.2.2)

/-- Orchestrator-level side effects of a turn: handler invocations (the
workflow history), classification-oracle consultations, and the events
the orchestrator's own code appended to the session store. -/
structure Effects where
  invoked : List String
  oracle_calls : Nat
  store_appends : List (String × Val)
  deriving Repr

def effects_of (c : Config) : Effects :=
  { invoked := c.st.workflow_history, oracle_calls := c.oracle_calls,
    store_appends := c.store_appends }

/-- The single event of lines 621-623. -/
def invalid_message_chunk : Chunk :=
  ⟨"error", some (.str "Invalid message"), none⟩

/-- Python truthiness of `input_data.get("message")`. -/
def py_falsy_str : Option String → Bool
  | none => true
  | some s => s == ""

/-- `process_stream` (lines 619-708): the guard on a falsy `message`
(lines 621-623) short-circuits before anything else runs; then
`input_data["session_id"]` (line 636) raises `KeyError` when the caller
omits it (as the chat route in fact does); otherwise the turn loop
streams.  Returns the yielded chunks, the exception escaping the
generator (if any), and the orchestrator-level side effects. -/
def process_stream (env : Env) (message : Option String)
    (session_id : Option String) (ctx : Val) (fuel : Nat) :
    List Chunk × Option PyErr × Effects :=
  match message with
  | none => ([invalid_message_chunk], none, ⟨[], 0, []⟩)
  | some m =>
    if m == "" then ([invalid_message_chunk], none, ⟨[], 0, []⟩)
    else
      match session_id with
      | none => ([], some (.keyErr "session_id"), ⟨[], 0, []⟩)
      | some _ =>
        let r := run_stream env fuel (init_config m ctx)
        (r.1, r.2.1, effects_of r.2.2)

/-! ### Claims about the streamed turn -/

/-- Claim C10: for every input whose message is absent or empty, the
streamed turn yields exactly the single event
`{status: "error", result: "Invalid message"}` and terminates without
raising: no handler is invoked, the oracle is not consulted, and nothing
is appended to the session store — for every environment, session id,
initial context and recursion limit. -/
theorem empty_message_single_error_event (env : Env)
    (message session_id : Option String) (ctx : Val) (fuel : Nat)
    (h : py_falsy_str message = true) :
    process_stream env message session_id ctx fuel =
      ([invalid_message_chunk], none,
       ⟨([] : List String), 0, ([] : List (String × Val))⟩) := by
  cases message with
  | none => rfl
  | some m =>
    simp only [py_falsy_str] at h
    simp [process_stream, h]

/-- Witness for claim C10 at a concrete input. -/
theorem empty_message_single_error_event_witness :
    py_falsy_str (some "") = true ∧
    process_stream
        ⟨⟨[], [], [], [], []⟩, fun _ => .unparsable "", fun _ => .error (),
          fun _ _ => .ok []⟩
        (some "") (some "sess") .null 25 =
      ([invalid_message_chunk], none,
       ⟨([] : List String), 0, ([] : List (String × Val))⟩) :=
  ⟨rfl, empty_message_single_error_event _ (some "") (some "sess") .null 25 rfl⟩

/-- Claim C4 as stated: after a handler invocation whose result status
`s` is not `success`, the Continuation Planner schedules no further
handler and the event emitted for the invocation carries the status `s`
unchanged. -/
def non_success_claim : Prop :=
  ∀ (st : AgentState) (r : Dict) (s : String) (name : String)
    (reply : Except Unit NextStepsAnalysis),
    st.result = some r → dget r "status" = some (.str s) → s ≠ "success" →
    (∃ st', determine_next_steps st reply = .ok (st', false) ∧
      st'.next_steps = []) ∧
    (chunk_for (.agentNode name) st).map Chunk.status = some s

/-- The state after a handler returned an error-status result, used by
the C4 counterexample and witness. -/
def err_result_state : AgentState :=
  { messages := ["m"], current_agent := some "search", context := .dict [],
    result := some [("status", .str "error"), ("error", .str "boom")],
    workflow_history := ["search"], next_steps := [] }

/-- Claim C4, counterexample: for a handler result with status `error`,
the turn does end, but `process_stream` emits the event under a
top-level status of `success` (line 683: everything that is neither
`processing` nor `need_more_info` is yielded as `success`), so the
status is not propagated unchanged. -/
theorem non_success_claim_false : ¬ non_success_claim := by
  intro h
  have h2 := (h err_result_state
      [("status", .str "error"), ("error", .str "boom")] "error" "search"
      (.error ()) rfl rfl (by simp)).2
  rw [show (chunk_for (.agentNode "search") err_result_state).map Chunk.status
        = some "success" from rfl] at h2
  simp at h2

/-- Claim C4, amended: after a handler invocation whose result status `s`
is not `success`, the Continuation Planner schedules no further handler
(the state keeps the result unchanged, `next_steps` is cleared, the
conditional edge selects `end`, and the continuation oracle is not
consulted), and the result dict itself is propagated unchanged inside
the emitted event; but the event's *top-level* status equals `s` only
for `need_more_info` and `processing` — any other failing status
(e.g. `error`) is emitted under a top-level status of `success`, with
the original status visible only inside the result payload. -/
theorem non_success_ends_turn (st : AgentState) (r : Dict) (s : String)
    (name : String) (reply : Except Unit NextStepsAnalysis)
    (hr : st.result = some r) (hs : dget r "status" = some (.str s))
    (hne : s ≠ "success") :
    determine_next_steps st reply = .ok (clear_steps st, false) ∧
    get_next_step_node (clear_steps st) = (clear_steps st, "end") ∧
    chunk_for (.agentNode name) st =
      some ⟨(if s = "processing" then "processing"
             else if s = "need_more_info" then "need_more_info"
             else "success"),
            some (.dict r),
            (if s = "processing" then progress_message_for_result name
             else none)⟩ := by
  have hrne : r.isEmpty = false := by
    cases r with
    | nil => simp [dget] at hs
    | cons a l => rfl
  have hstat : ∀ t, is_status r t = (s == t) := by
    intro t
    simp [is_status, hs]
  have hsucc : is_status r "success" = false := by
    rw [hstat]
    simpa using hne
  refine ⟨by simp [determine_next_steps, hr, hsucc],
          get_next_step_node_nil _ rfl, ?_⟩
  by_cases hp : s = "processing"
  · subst hp
    simp [chunk_for, general_chunk, hr, hrne, hstat]
  · by_cases hn : s = "need_more_info"
    · subst hn
      simp [chunk_for, general_chunk, hr, hrne, hstat]
    · simp [chunk_for, general_chunk, hr, hrne, hstat, hp, hn]

/-- Witness for the amended claim C4 at a concrete input. -/
theorem non_success_ends_turn_witness :
    err_result_state.result
        = some [("status", Val.str "error"), ("error", Val.str "boom")] ∧
    dget [("status", Val.str "error"), ("error", Val.str "boom")] "status"
        = some (.str "error") ∧
    ("error" : String) ≠ "success" ∧
    (determine_next_steps err_result_state (.error ())
        = .ok (clear_steps err_result_state, false) ∧
     get_next_step_node (clear_steps err_result_state)
        = (clear_steps err_result_state, "end") ∧
     chunk_for (.agentNode "search") err_result_state =
       some ⟨(if "error" = "processing" then "processing"
              else if "error" = "need_more_info" then "need_more_info"
              else "success"),
             some (.dict [("status", Val.str "error"),
               ("error", Val.str "boom")]),
             (if "error" = "processing"
              then progress_message_for_result "search" else none)⟩) :=
  ⟨rfl, rfl, by simp,
   non_success_ends_turn err_result_state _ "error" "search" (.error ())
     rfl rfl (by simp)⟩

/-- Claim C5: whenever the planning handler has already run this turn
and the current result's status is `success`, the Continuation Planner
unconditionally ends the loop with the hard-coded email request —
status `need_more_info`, missing exactly the `email` field — without
consulting the oracle: the outcome is identical for *every* oracle
reply and the consulted flag is false. -/
theorem planner_completion_requests_email (st : AgentState) (r : Dict)
    (reply : Except Unit NextStepsAnalysis)
    (hr : st.result = some r)
    (hs : is_status r "success" = true)
    (hp : "planner" ∈ st.workflow_history) :
    determine_next_steps st reply = .ok (email_pause st, false) ∧
    (email_pause st).next_steps = [] ∧
    (email_pause st).result = some (email_request_result st.context) ∧
    dget (email_request_result st.context) "missing_fields"
      = some (.list [.str "email"]) ∧
    is_status (email_request_result st.context) "need_more_info" = true := by
  exact ⟨by simp [determine_next_steps, hr, hs, hp], rfl, rfl, rfl, rfl⟩

/-- The state after a successful planner run, used by the C5 witness. -/
def planner_done_state : AgentState :=
  { messages := ["부산 여행"], current_agent := some "planner",
    context := .dict [("destination", .str "부산")],
    result := some [("status", .str "success")],
    workflow_history := ["planner"], next_steps := [] }

/-- Witness for claim C5 at a concrete input. -/
theorem planner_completion_requests_email_witness :
    planner_done_state.result = some [("status", Val.str "success")] ∧
    is_status [("status", Val.str "success")] "success" = true ∧
    "planner" ∈ planner_done_state.workflow_history ∧
    (determine_next_steps planner_done_state
        (.ok ⟨false, ["planner", "search"]⟩)
        = .ok (email_pause planner_done_state, false) ∧
     (email_pause planner_done_state).next_steps = [] ∧
     (email_pause planner_done_state).result
        = some (email_request_result planner_done_state.context) ∧
     dget (email_request_result planner_done_state.context) "missing_fields"
        = some (.list [.str "email"]) ∧
     is_status (email_request_result planner_done_state.context)
        "need_more_info" = true) :=
  ⟨rfl, rfl, by simp [planner_done_state],
   planner_completion_requests_email planner_done_state _
     (.ok ⟨false, ["planner", "search"]⟩) rfl rfl
     (by simp [planner_done_state])⟩

/-- Claim C9: when the stored session history holds at least one email
event and at least one plan event, and the (stripped) incoming message
does not contain both '@' and '.', the router short-circuits to the
calendar handler without consulting the classification oracle, and the
turn state's context field is set to the raw message string rather than
a context mapping — for every oracle reply. -/
theorem email_and_plan_routes_calendar (session : SessionData)
    (st : AgentState) (reply : OracleReply) (last : String)
    (hm : st.messages.getLast? = some last)
    (hat : (py_contains (py_strip last) '@'
      && py_contains (py_strip last) '.') = false)
    (he : session.email ≠ []) (hp : session.plan ≠ []) :
    analyze_intent session reply st =
      .ok (calendar_capture_output st (py_strip last)) ∧
    (calendar_capture_output st (py_strip last)).state.current_agent
      = some "calendar" ∧
    (calendar_capture_output st (py_strip last)).state.context
      = .str (py_strip last) ∧
    (calendar_capture_output st (py_strip last)).consulted_oracle
      = false := by
  have he2 : session.email.isEmpty = false := by
    simpa [List.isEmpty_iff] using he
  have hp2 : session.plan.isEmpty = false := by
    simpa [List.isEmpty_iff] using hp
  refine ⟨?_, rfl, rfl, rfl⟩
  simp [analyze_intent, hm, hat, he2, hp2]

/-- The session snapshot used by the C9 witness: one email event and one
plan event stored. -/
def c9_session : SessionData :=
  { plan := [.dict [("itinerary", .list [])]],
    context := [[("destination", .str "부산")]], collected_info := [],
    email := [.str "user@example.com"], conversation_state := [] }

/-- The turn state used by the C9 witness: the user answered `예`. -/
def c9_state : AgentState :=
  { messages := ["예"], current_agent := none, context := .dict [],
    result := none, workflow_history := [], next_steps := [] }

/-- Witness for claim C9 at a concrete input. -/
theorem email_and_plan_routes_calendar_witness :
    c9_state.messages.getLast? = some "예" ∧
    (py_contains (py_strip "예") '@' && py_contains (py_strip "예") '.')
      = false ∧
    c9_session.email ≠ [] ∧ c9_session.plan ≠ [] ∧
    (analyze_intent c9_session (.unparsable "ignored") c9_state =
        .ok (calendar_capture_output c9_state (py_strip "예")) ∧
     (calendar_capture_output c9_state (py_strip "예")).state.current_agent
        = some "calendar" ∧
     (calendar_capture_output c9_state (py_strip "예")).state.context
        = .str (py_strip "예") ∧
     (calendar_capture_output c9_state (py_strip "예")).consulted_oracle
        = false) :=
  ⟨rfl, rfl, by simp [c9_session], by simp [c9_session],
   email_and_plan_routes_calendar c9_session c9_state (.unparsable "ignored")
     "예" rfl rfl (by simp [c9_session]) (by simp [c9_session])⟩

/-- The session snapshot for the C7 failing input: a completed plan and
a context event are stored, no email yet. -/
def c7_session : SessionData :=
  { plan := [.dict [("itinerary", .list [])]],
    context := [[("destination", .str "부산")]], collected_info := [],
    email := [], conversation_state := [] }

/-- The turn state for the C7 failing input: the user sent their email
address. -/
def c7_state : AgentState :=
  { messages := ["user@example.com"], current_agent := none,
    context := .dict [], result := none, workflow_history := [],
    next_steps := [] }

/-- Claim C7 (code bug): an email-looking message (contains '@' and '.')
while a plan is stored takes the capture branch and never consults the
oracle — but instead of completing with the intended `need_more_info`
pause (built at lines 191-199), the branch *always raises*
`NameError`: line 203 stores `{"type": "email", "data": email}` where
`email` is an undefined name (the local variable is `msg`).  The
`process_search_and_mail` Celery task has by then already been
enqueued.  The crash is independent of the oracle reply. -/
theorem email_capture_raises_nameerror (reply : OracleReply) :
    analyze_intent c7_session reply c7_state = .error (.nameErr "email") :=
  rfl

/-- The current session context for the C1 failing input: `destination`
is already present with a non-null, non-empty value. -/
def c1_cc : Dict := [("destination", .str "부산")]

def c1_session : SessionData :=
  { plan := [], context := [c1_cc], collected_info := [], email := [],
    conversation_state := [] }

def c1_state : AgentState :=
  { messages := ["여행 계획을 세워줘"], current_agent := none,
    context := .dict [], result := none, workflow_history := [],
    next_steps := [] }

/-- The oracle reply for the C1 failing input: the classifier lists both
`destination` and `departure_date` as missing. -/
def c1_reply : IntentAnalysis :=
  { primary_intent := "planner", suggested_next_steps := [],
    extracted_context := [],
    missing_info := some ⟨["destination", "departure_date"], "정보가 더 필요합니다", []⟩ }

/-- Claim C1 (code bug): the reconciliation of lines 335-356 correctly
computes the filtered list (only `departure_date` remains, since
`destination` is present non-null in the current context) and that list
correctly drives the outcome decision — but the emitted
`need_more_info` result is built (line 435) from the stale local
`missing_fields`, the *pre-filter* list bound at line 337, so the field
`destination`, present with the non-null, non-empty value `부산` in the
current context, still appears in the emitted missing-fields list. -/
theorem missing_fields_emission_code_bug :
    reconcile_missing c1_cc c1_reply =
      .ok ({ c1_reply with
             missing_info := some ⟨["departure_date"], "정보가 더 필요합니다", []⟩ },
           ["destination", "departure_date"]) ∧
    ((analyze_intent c1_session (.parsed c1_reply) c1_state).toOption.bind
        (fun out => out.state.result)).bind (fun r => dget r "status")
      = some (.str "need_more_info") ∧
    ((analyze_intent c1_session (.parsed c1_reply) c1_state).toOption.bind
        (fun out => out.state.result)).bind (fun r => dget r "missing_fields")
      = some (.list [.str "destination", .str "departure_date"]) ∧
    dget c1_cc "destination" = some (.str "부산") ∧
    Val.isNull (.str "부산") = false ∧ Val.emptyColl (.str "부산") = false :=
  ⟨rfl, rfl, rfl, rfl, rfl, rfl⟩

/-! ### C3: the handler contract and `CalendarAgent.process` -/

/-- `CalendarAgent.process` (calendar_agent.py lines 137-257).
`validate` always returns `True` (all its checks are commented out,
lines 46-55), so the error-return of lines 140-144 is unreachable.  The
method then dereferences `session_data["plan"]` (line 148, `KeyError`
when the session store holds no plan events) and
`plan["itinerary"]` (line 149) with no try/except anywhere in the
method.  Everything from line 150 on (ISO date parsing, the
`session_data["email"]` lookup, and the conversational registration
logic that calls the Google Calendar API) is abstracted by the
continuation `rest`, which receives the message value, the plan and the
itinerary; the C3 theorem holds for *every* such continuation. -/
def calendar_process
    (rest : Val → Val → Val → SessionData → Except PyErr Dict)
    (session : SessionData) (ctxIn : Val) : Except PyErr Dict :=
  match session.plan.getLast? with
  | none => .error (.keyErr "plan")
  | some plan =>
    match plan with
    | .dict pd =>
      match dget pd "itinerary" with
      | none => .error (.keyErr "itinerary")
      | some itin => rest ctxIn plan itin session
    | _ => .error .typeErr

/-- Claim C3 (code bug): the handler contract requires every handler's
`process` to convert internal faults into an `{status: "error", ...}`
return value; `PlannerAgent.process` and `SearchAgent.process` do wrap
their bodies in try/except, but `CalendarAgent.process` has no
try/except at all and raises an uncaught `KeyError('plan')` on any
request whose session store holds no plan events (e.g. a fresh
session), whatever the rest of the method would do and whatever the
request's context value is. -/
theorem calendar_process_raises_keyerror
    (rest : Val → Val → Val → SessionData → Except PyErr Dict)
    (ctxIn : Val) :
    calendar_process rest ⟨[], [], [], [], []⟩ ctxIn
      = .error (.keyErr "plan") :=
  rfl

/-! ### C8: the chat route's SSE stream (`stream_response`) -/

/-- Server-sent events produced by `stream_response`
(chat.py lines 36-88): framed data lines, the error event of the except
handler, and the completion marker `event: complete`. -/
inductive SSE where
  | dataEvent (payload : Val)
  | errorEvent (e : PyErr)
  | completeEvent
  deriving Repr

def SSE.isComplete : SSE → Bool
  | .completeEvent => true
  | _ => false

/-- One session's entry in the route's module-global
`conversation_history`. -/
structure SessionHist where
  context : Val
  previous_result : Option Val
  plan : Option Val
  deriving Repr

/-- `container[k]` subscription (raises on a missing key or a
non-subscriptable container). -/
def subscript (v : Val) (k : String) : Except PyErr Val :=
  match v with
  | .dict d =>
    match dget d k with
    | some x => .ok x
    | none => .error (.keyErr k)
  | _ => .error .typeErr

/-- `container.get(k)` (raises `AttributeError` on a non-dict). -/
def val_get (v : Val) (k : String) : Except PyErr (Option Val) :=
  match v with
  | .dict d => .ok (dget d k)
  | _ => .error .attrErr

/-- The session-bookkeeping of chat.py lines 54-66, run after a
`success`/`need_more_info` data event was already yielded: the
`'current_context' in chunk["result"]` test (a `TypeError` when the
result is `None`), and the `plan := result.get("plan")`
walrus-and-truthiness update. -/
def update_hist (sid_truthy : Bool) (status : String) (res : Option Val)
    (h : SessionHist) : Except PyErr SessionHist :=
  if !sid_truthy then .ok h
  else
    match res with
    | none => .error .typeErr
    | some v =>
      match py_in "current_context" v with
      | .error e => .error e
      | .ok hasCtx =>
        match (if hasCtx then
                 (subscript v "current_context").map
                   (fun cv => { h with context := cv })
               else .ok h) with
        | .error e => .error e
        | .ok h =>
          if status = "success" then
            match val_get v "plan" with
            | .error e => .error e
            | .ok planv =>
              .ok (match planv with
                | some p =>
                  if p.truthy then { h with plan := some p }
                  else { h with previous_result := some v }
                | none => { h with previous_result := some v })
          else .ok h

/-- Lines 51-72: the events one chunk yields, and the session update
(or the exception it raises — *after* the data event went out). -/
def handle_chunk (sid_truthy : Bool) (h : SessionHist) (ck : Chunk) :
    List SSE × Except PyErr SessionHist :=
  if ck.status = "success" ∨ ck.status = "need_more_info" then
    ([.dataEvent (ck.result.getD .null)],
     update_hist sid_truthy ck.status ck.result h)
  else if ck.status = "processing" then
    ((match ck.output_message with
      | some m =>
        if m ≠ "" then
          [.dataEvent (.dict [("status", .str "success"),
            ("message", .str m)])]
        else []
      | none => []),
     .ok h)
  else
    ([.dataEvent (.dict [("error", .str "Failed to process message")])],
     .ok h)

/-- The `async for` loop of lines 45-72 over the orchestrator's chunks,
stopping at the first exception raised by the loop body. -/
def stream_loop (sid_truthy : Bool) (h : SessionHist) :
    List Chunk → List SSE × Except PyErr SessionHist
  | [] => ([], .ok h)
  | ck :: rest =>
    match handle_chunk sid_truthy h ck with
    | (evs, .error e) => (evs, .error e)
    | (evs, .ok h2) =>
      let r := stream_loop sid_truthy h2 rest
      (evs ++ r.1, r.2)

/-- `stream_response` (chat.py lines 36-88): consumes the orchestrator's
chunk stream (`chunks`, after which the generator raises `exc` if set),
frames events, and ends the stream: on the normal path with the
completion marker of line 75; in the except handler (which catches both
generator exceptions and exceptions of the loop's own bookkeeping) with
the error event of line 87 followed by the completion marker of
line 88. -/
def stream_response (sid_truthy : Bool) (h : SessionHist)
    (chunks : List Chunk) (exc : Option PyErr) : List SSE :=
  match stream_loop sid_truthy h chunks with
  | (evs, .error e) => evs ++ [.errorEvent e, .completeEvent]
  | (evs, .ok _) =>
    match exc with
    | some e => evs ++ [.errorEvent e, .completeEvent]
    | none => evs ++ [.completeEvent]

theorem handle_chunk_no_complete (sid_truthy : Bool) (h : SessionHist)
    (ck : Chunk) :
    ∀ e ∈ (handle_chunk sid_truthy h ck).1, e.isComplete = false := by
  unfold handle_chunk
  repeat' split
  all_goals simp [SSE.isComplete]

theorem stream_loop_no_complete (sid_truthy : Bool) (h : SessionHist)
    (chunks : List Chunk) :
    ∀ e ∈ (stream_loop sid_truthy h chunks).1, e.isComplete = false := by
  induction chunks generalizing h with
  | nil => simp [stream_loop]
  | cons ck rest ih =>
    unfold stream_loop
    split
    · next evs e heq =>
      intro x hx
      have := handle_chunk_no_complete sid_truthy h ck
      rw [heq] at this
      exact this x hx
    · next evs h2 heq =>
      intro x hx
      simp only [List.mem_append] at hx
      rcases hx with hx | hx
      · have := handle_chunk_no_complete sid_truthy h ck
        rw [heq] at this
        exact this x hx
      · exact ih h2 x hx

/-- Claim C8: every stream produced by the caller-facing endpoint ends
with exactly one completion marker, whatever chunks the orchestrator
produced and whether or not an exception was raised while streaming
(by the orchestrator's generator or by the route's own bookkeeping):
the marker count is one and the final event is the marker. -/
theorem stream_ends_with_one_complete (sid_truthy : Bool)
    (h : SessionHist) (chunks : List Chunk) (exc : Option PyErr) :
    (stream_response sid_truthy h chunks exc).countP SSE.isComplete = 1 ∧
    ((stream_response sid_truthy h chunks exc).getLast?.map SSE.isComplete)
      = some true := by
  have hno := stream_loop_no_complete sid_truthy h chunks
  unfold stream_response
  split
  · next evs e heq =>
    rw [heq] at hno
    constructor
    · rw [List.countP_append, List.countP_eq_zero.mpr (by
        intro x hx
        simpa using hno x hx)]
      simp [List.countP_cons, SSE.isComplete]
    · rw [show evs ++ [SSE.errorEvent e, SSE.completeEvent]
          = (evs ++ [SSE.errorEvent e]) ++ [SSE.completeEvent] from by simp]
      simp [SSE.isComplete]
  · next evs h2 heq =>
    rw [heq] at hno
    split
    · constructor
      · rw [List.countP_append, List.countP_eq_zero.mpr (by
          intro x hx
          simpa using hno x hx)]
        simp [List.countP_cons, SSE.isComplete]
      · next e =>
        rw [show evs ++ [SSE.errorEvent e, SSE.completeEvent]
            = (evs ++ [SSE.errorEvent e]) ++ [SSE.completeEvent] from by simp]
        simp [SSE.isComplete]
    · constructor
      · rw [List.countP_append, List.countP_eq_zero.mpr (by
          intro x hx
          simpa using hno x hx)]
        simp [SSE.isComplete]
      · simp [SSE.isComplete]

end TravelAgent
